import Mathlib

/-!
Verification of the access-gating and subscription logic of the
private-area site (Next.js + NextAuth + Stripe), shallowly embedded
from the repository source.
-/

/-- A user record as persisted by the Prisma adapter:
`User(id, email, isSubscriber)` with `isSubscriber` defaulting to false. -/
structure User where
  id : String
  email : Option String
  isSubscriber : Bool
deriving DecidableEq, Repr

/-- The enriched session user exposed to application code by the
session callback in `auth.js`: carries `id` and `isSubscriber`. -/
structure SessionUser where
  id : String
  isSubscriber : Bool
deriving DecidableEq, Repr

/-- The value returned by the `useSession()` hook in `pages/index.js`:
`data` is the session (null when unauthenticated) and `status` is one of
the strings "loading", "authenticated", "unauthenticated". -/
structure UseSessionResult where
  data : Option SessionUser
  status : String
deriving DecidableEq, Repr

/-- What the `Home` component of `pages/index.js` does on a render:
return null, push a route with the router, or render the landing JSX. -/
inductive HomeRender where
  | null
  | redirect (path : String)
  | landingPage
deriving DecidableEq, Repr

/-- The `Home` component of `pages/index.js`, transcribed from source:
`loading = status === 'loading'`; if loading return null; if session,
`router.push('/members')`; otherwise render the landing page. -/
def Home (r : UseSessionResult) : HomeRender :=
  let loading := r.status == "loading"
  if loading then .null
  else match r.data with
    | some _ => .redirect "/members"
    | none => .landingPage

/-- The destinations of the Access Gate: the spec's three pages plus the
deferred outcome in which nothing is rendered yet (session still loading). -/
inductive Destination where
  | landing
  | checkout
  | members
  | deferred
deriving DecidableEq, Repr

/-- Modelled from the spec: `pages/members.js` is not under src/ (only its
callers and the repository documentation are). Per the spec, the members
page is a protected route: an anonymous visit to `/members` is redirected
to the landing page; an authenticated visitor with subscription flag false
is redirected to the checkout page; a subscriber is shown the members
content. -/
def membersPageGate (data : Option SessionUser) : Destination :=
  match data with
  | none => .landing
  | some u => if u.isSubscriber then .members else .checkout

/-- The Access Gate entered at the `Home` component: `Home` is the source
transcription from `pages/index.js`; its only redirect target is
`/members`, where the members-page gate decides the final destination. -/
def accessGate (r : UseSessionResult) : Destination :=
  match Home r with
  | .null => .deferred
  | .landingPage => .landing
  | .redirect _ => membersPageGate r.data

/-- C1: for every session whose subscription flag is false, the Access
Gate entered at the Home component returns the checkout destination, not
the members destination. -/
theorem accessGate_flag_false_checkout (u : SessionUser) (st : String)
    (hst : st ≠ "loading") (hflag : u.isSubscriber = false) :
    accessGate ⟨some u, st⟩ = .checkout ∧ accessGate ⟨some u, st⟩ ≠ .members := by
  have hb : (st == "loading") = false := beq_eq_false_iff_ne.mpr hst
  simp [accessGate, Home, membersPageGate, hb, hflag]

/-- Witness for C1 at a concrete non-subscriber session. -/
theorem accessGate_flag_false_checkout_witness :
    ("authenticated" ≠ "loading") ∧ (SessionUser.mk "u1" false).isSubscriber = false ∧
      (accessGate ⟨some (SessionUser.mk "u1" false), "authenticated"⟩ = .checkout ∧
        accessGate ⟨some (SessionUser.mk "u1" false), "authenticated"⟩ ≠ .members) :=
  ⟨by decide, rfl,
    accessGate_flag_false_checkout (SessionUser.mk "u1" false) "authenticated"
      (by decide) rfl⟩

/-- C2: for every session whose subscription flag is true, the Access
Gate returns the members destination. -/
theorem accessGate_flag_true_members (u : SessionUser) (st : String)
    (hst : st ≠ "loading") (hflag : u.isSubscriber = true) :
    accessGate ⟨some u, st⟩ = .members := by
  have hb : (st == "loading") = false := beq_eq_false_iff_ne.mpr hst
  simp [accessGate, Home, membersPageGate, hb, hflag]

/-- Witness for C2 at a concrete subscriber session. -/
theorem accessGate_flag_true_members_witness :
    ("authenticated" ≠ "loading") ∧ (SessionUser.mk "u2" true).isSubscriber = true ∧
      accessGate ⟨some (SessionUser.mk "u2" true), "authenticated"⟩ = .members :=
  ⟨by decide, rfl,
    accessGate_flag_true_members (SessionUser.mk "u2" true) "authenticated"
      (by decide) rfl⟩

/-- C3: for every visitor with no session, the Access Gate returns the
landing destination; with no session present there is no subscription
flag for the gate to consult, so no stale flag value can change this. -/
theorem accessGate_no_session_landing (st : String) (hst : st ≠ "loading") :
    accessGate ⟨none, st⟩ = .landing := by
  have hb : (st == "loading") = false := beq_eq_false_iff_ne.mpr hst
  simp [accessGate, Home, hb]

/-- Witness for C3 at the concrete unauthenticated status. -/
theorem accessGate_no_session_landing_witness :
    ("unauthenticated" ≠ "loading") ∧
      accessGate ⟨none, "unauthenticated"⟩ = .landing :=
  ⟨by decide, accessGate_no_session_landing "unauthenticated" (by decide)⟩

/-- C9: while the session status is "loading", the Home component renders
nothing and performs no redirect; the gate outcome is the deferred one,
distinct from each of the spec's three destinations. -/
theorem home_loading_defers (d : Option SessionUser) :
    Home ⟨d, "loading"⟩ = .null ∧ (∀ p, Home ⟨d, "loading"⟩ ≠ .redirect p) ∧
      accessGate ⟨d, "loading"⟩ = .deferred ∧
      (Destination.deferred ≠ .landing ∧ Destination.deferred ≠ .checkout ∧
        Destination.deferred ≠ .members) := by
  refine ⟨by simp [Home], fun p => by simp [Home], by simp [accessGate, Home], by decide⟩

/-- The session object NextAuth hands to the session callback in
`auth.js`; application code reads `session.user` after enrichment. -/
structure AuthSession where
  user : SessionUser
  expires : Nat
deriving DecidableEq, Repr

/-- The session-enrichment callback of `auth.js`, transcribed from
source: when a `user` record is present, copy `user.id` and
`user.isSubscriber` onto `session.user`, then return the session. -/
def sessionCallback (session : AuthSession) (user : Option User) : AuthSession :=
  match user with
  | some u =>
      { session with
          user := { session.user with id := u.id, isSubscriber := u.isSubscriber } }
  | none => session

/-- C8: for every authenticated request (the persisted user record is
passed to the callback under the database strategy), the exposed session
carries exactly the user's identifier and subscription flag as stored on
the persisted user record. -/
theorem session_callback_exposes_user_fields (s : AuthSession) (u : User) :
    (sessionCallback s (some u)).user.id = u.id ∧
      (sessionCallback s (some u)).user.isSubscriber = u.isSubscriber :=
  ⟨rfl, rfl⟩

/-- The `session` block of the NextAuth configuration in `auth.js`. -/
structure SessionOptions where
  strategy : String
  maxAge : Nat
deriving DecidableEq, Repr

/-- The configured session options of `auth.js`, transcribed from
source: database strategy, `maxAge: 30 * 24 * 60 * 60` seconds. -/
def authSessionOptions : SessionOptions :=
  { strategy := "database", maxAge := 30 * 24 * 60 * 60 }

/-- Modelled from the spec: session issuance is owned by the external
identity provider (consumed contract only); a session created at
`issuedAt` expires `maxAge` seconds later, so its expiry is determined
by the configured `maxAge`. -/
def sessionExpiry (issuedAt : Nat) : Nat :=
  issuedAt + authSessionOptions.maxAge

/-- C10: sessions use the database strategy with a maximum age of
exactly 30 days (2592000 seconds); hence no session created at time `t`
has an expiry beyond `t + 2592000`. -/
theorem session_config_thirty_days :
    authSessionOptions.strategy = "database" ∧
      authSessionOptions.maxAge = 2592000 ∧
      ∀ t : Nat, sessionExpiry t ≤ t + 2592000 := by
  refine ⟨rfl, rfl, fun t => ?_⟩
  simp [sessionExpiry, authSessionOptions]

/-- The argument object of `stripe.checkout.sessions.create` as built in
`pages/api/stripe/session.js` (the call is reproduced verbatim in
`DEPENDENCY_UPGRADE_PLAN.md`). -/
structure CheckoutSessionParams where
  billing_address_collection : String
  price : String
  quantity : Nat
  mode : String
  success_url : String
  cancel_url : String
  client_reference_id : String
deriving DecidableEq, Repr

/-- The checkout-session request built by `pages/api/stripe/session.js`
for a given base URL, price identifier and requesting user identifier,
transcribed from the source reproduced in the upgrade plan. -/
def checkoutParams (baseUrl priceId userId : String) : CheckoutSessionParams :=
  { billing_address_collection := "auto"
    price := priceId
    quantity := 1
    mode := "subscription"
    success_url := baseUrl ++ "/success?session_id=\x7bCHECKOUT_SESSION_ID\x7d"
    cancel_url := baseUrl ++ "/cancelled"
    client_reference_id := userId }

/-- Modelled from the spec: the body of `pages/api/stripe/session.js` is
not under src/ beyond its checkout-session call; per the spec the
Checkout Session Initiator takes the authenticated user identifier,
rejects with an authorization error when it is absent, and otherwise
returns the redirect URL of the payment-processor session created from
`checkoutParams`. -/
def checkoutSessionInitiator (baseUrl priceId : String)
    (userId : Option String) : Except String CheckoutSessionParams :=
  match userId with
  | none => .error "Unauthorized"
  | some uid => .ok (checkoutParams baseUrl priceId uid)

/-- C7: when no authenticated user identifier is present, the Checkout
Session Initiator rejects with an authorization error and produces no
payment-page redirect. -/
theorem initiator_rejects_unauthenticated (baseUrl priceId : String) :
    checkoutSessionInitiator baseUrl priceId none = .error "Unauthorized" ∧
      ∀ p, checkoutSessionInitiator baseUrl priceId none ≠ .ok p :=
  ⟨rfl, fun p h => by simp [checkoutSessionInitiator] at h⟩

/-- The outcome reported by the Payment Confirmation Handler. -/
inductive ConfirmResult where
  | ok
  | notFound
deriving DecidableEq, Repr

/-- Set the subscription flag of the user with identifier `uid` to true,
leaving every other record untouched (the `isSubscriber: true` update of
`pages/api/stripe/success.js`, applied to the user table). -/
def setSubscriber (store : List User) (uid : String) : List User :=
  store.map fun u => if u.id = uid then { u with isSubscriber := true } else u

/-- Modelled from the spec: `pages/api/stripe/success.js` is not under
src/ (only the repository documentation describing it is). Per the spec,
the Payment Confirmation Handler receives the payment-session reference
resolved to its correlated user identifier (`client_reference_id`, or
none when the reference is missing or invalid); when a user with that
identifier exists it sets that user's subscription flag to true,
otherwise it reports a not-found condition and mutates nothing. -/
def paymentConfirmationHandler (store : List User) (ref : Option String) :
    ConfirmResult × List User :=
  match ref with
  | none => (.notFound, store)
  | some uid =>
      if store.any (fun u => u.id = uid) then (.ok, setSubscriber store uid)
      else (.notFound, store)

/-- A reference is missing, invalid, or uncorrelated: it resolves to no
user identifier, or to one matching no user in the store. -/
def refCorrelatesNoUser (store : List User) (ref : Option String) : Bool :=
  match ref with
  | none => true
  | some uid => store.all fun u => !(u.id == uid)

theorem setSubscriber_any (store : List User) (uid v : String) :
    ((setSubscriber store uid).any fun u => u.id = v) =
      (store.any fun u => u.id = v) := by
  induction store with
  | nil => rfl
  | cons a l ih =>
      by_cases h : a.id = uid <;> simp [setSubscriber, h] at * <;> simp [ih]

theorem setSubscriber_idem (store : List User) (uid : String) :
    setSubscriber (setSubscriber store uid) uid = setSubscriber store uid := by
  unfold setSubscriber
  rw [List.map_map]
  apply List.map_congr_left
  intro u _
  by_cases h : u.id = uid <;> simp [Function.comp, h]

/-- C4: invoking the Payment Confirmation Handler twice with the same
payment reference yields the same end state of the user store as
invoking it once. -/
theorem confirmation_idempotent (store : List User) (ref : Option String) :
    (paymentConfirmationHandler (paymentConfirmationHandler store ref).2 ref).2 =
      (paymentConfirmationHandler store ref).2 := by
  cases ref with
  | none => rfl
  | some uid =>
      by_cases h : store.any (fun u => u.id = uid) = true
      · simp [paymentConfirmationHandler, h, setSubscriber_any, setSubscriber_idem]
      · simp [paymentConfirmationHandler, h]

/-- C5: on a valid completed-payment reference correlated to a user in
the store, the handler reports success and the end store corresponds
entry by entry to the initial one: identifiers and emails unchanged, the
flag of every user whose identifier is the correlated one set to true,
and the flag of every other user unchanged. -/
theorem confirmation_frame_effect (store : List User) (uid : String)
    (h : store.any (fun u => u.id = uid) = true) :
    (paymentConfirmationHandler store (some uid)).1 = .ok ∧
      List.Forall₂ (fun u v : User =>
        v.id = u.id ∧ v.email = u.email ∧
          v.isSubscriber = (if u.id = uid then true else u.isSubscriber))
        store (paymentConfirmationHandler store (some uid)).2 := by
  refine ⟨by simp [paymentConfirmationHandler, h], ?_⟩
  simp only [paymentConfirmationHandler, h, if_true, setSubscriber]
  rw [List.forall₂_map_right_iff, List.forall₂_same]
  intro u _
  by_cases hid : u.id = uid <;> simp [hid]

/-- Witness for C5: a two-user store in which exactly the correlated
user's flag becomes true. -/
theorem confirmation_frame_effect_witness :
    ([User.mk "u1" none false, User.mk "u2" none true].any
        (fun u => u.id = "u1") = true) ∧
      ((paymentConfirmationHandler [User.mk "u1" none false, User.mk "u2" none true]
          (some "u1")).1 = .ok ∧
        List.Forall₂ (fun u v : User =>
          v.id = u.id ∧ v.email = u.email ∧
            v.isSubscriber = (if u.id = "u1" then true else u.isSubscriber))
          [User.mk "u1" none false, User.mk "u2" none true]
          (paymentConfirmationHandler [User.mk "u1" none false, User.mk "u2" none true]
            (some "u1")).2) :=
  ⟨by decide,
    confirmation_frame_effect [User.mk "u1" none false, User.mk "u2" none true]
      "u1" (by decide)⟩

/-- C6: on a reference that is missing, invalid, or correlated to no user
in the store, the handler leaves the store entirely unchanged and reports
a not-found condition. -/
theorem confirmation_not_found_no_mutation (store : List User) (ref : Option String)
    (h : refCorrelatesNoUser store ref = true) :
    paymentConfirmationHandler store ref = (.notFound, store) := by
  cases ref with
  | none => rfl
  | some uid =>
      have hany : store.any (fun u => u.id = uid) = false := by
        simp only [refCorrelatesNoUser, List.all_eq_true] at h
        simp only [List.any_eq_false]
        intro u hu
        simpa using h u hu
      simp [paymentConfirmationHandler, hany]

/-- Witness for C6: a reference matching no user identifier leaves a
concrete store untouched. -/
theorem confirmation_not_found_no_mutation_witness :
    refCorrelatesNoUser [User.mk "u1" none false] (some "zz") = true ∧
      paymentConfirmationHandler [User.mk "u1" none false] (some "zz") =
        (.notFound, [User.mk "u1" none false]) :=
  ⟨by decide,
    confirmation_not_found_no_mutation [User.mk "u1" none false] (some "zz")
      (by decide)⟩
